import Mathlib

/-!
Verification of the Consul CA lifecycle manager specification against the
repository sources. The repository fragment contains the manager's test file;
the mock delegate and mock provider found there are embedded directly, and the
parts of the manager the tests exercise but do not contain are modelled from
the specification, as marked on each definition.
-/

namespace ConsulCA

/-- Modelled from the spec: a parsed X.509 certificate as the lifecycle manager
observes it (the PEM parsing utilities are external collaborators). Only the
validity window and the subject key id matter to the manager; times are seconds
since an arbitrary epoch. -/
structure Cert where
  notBefore : Int
  notAfter : Int
  skid : List Nat
deriving DecidableEq, Repr

/-- Hex encoding of one nibble as a lowercase character. -/
def hexDigit (n : Nat) : Char :=
  if n < 10 then Char.ofNat (48 + n) else Char.ofNat (87 + n)

/-- Two-digit lowercase hex encoding of one byte. -/
def hexByte (b : Nat) : String :=
  String.mk [hexDigit (b / 16 % 16), hexDigit (b % 16)]

/-- Modelled from the spec: the hex-encoded subject key id stored in a CARoot's
SigningKeyID field, written as colon-separated hex bytes; the encoder
(connect.HexString) is not under src. -/
def HexString (bs : List Nat) : String :=
  String.intercalate ":" (bs.map hexByte)

/-- Modelled from the spec (data model, CARoot): one record per generation of
root key. The unique identifier is a fingerprint of the root certificate; since
the hashing utility is not under src, fingerprinting is modelled as the
certificate value itself, which keeps it injective. -/
structure CARoot where
  id : Cert
  rootCert : Cert
  intermediateCerts : List Cert
  active : Bool
  signingKeyID : String
deriving DecidableEq, Repr

/-- Modelled from the spec (provider ActiveIntermediate and the CARoot chain
order, most specific last): the certificate actually used to sign leaves is the
last certificate of the active root's intermediate chain, falling back to the
root certificate when the chain is empty. The manager method
getLeafSigningCertFromRoot is referenced by the tests but defined outside src. -/
def getLeafSigningCertFromRoot (r : CARoot) : Cert :=
  match r.intermediateCerts.getLast? with
  | some c => c
  | none => r.rootCert

/-- Invariant from the data model: a CARoot's SigningKeyID is the hex-encoded
subject key id of the certificate actually used to sign leaves. -/
def rootSigningKeyConsistent (r : CARoot) : Prop :=
  r.signingKeyID = HexString (getLeafSigningCertFromRoot r).skid

/-- Modelled from the spec (data model, CAConfiguration): the cluster-wide CA
configuration with its raft-style modification index used for optimistic
compare-and-set; the opaque provider-specific mapping is summarised by the
provider name. -/
structure CAConfiguration where
  provider : String
  modifyIndex : Nat
deriving DecidableEq, Repr

/-- Modelled from the spec (durable CA store): the store holds the current
configuration and the root set, each versioned by a monotonic log index. The
underlying state.Store is not under src. -/
structure StateStore where
  configIdx : Nat
  config : CAConfiguration
  rootsIdx : Nat
  roots : List CARoot
deriving DecidableEq, Repr

/-- Modelled from the spec: unconditional configuration write; the stored
configuration is versioned with the write index. -/
def CASetConfig (idx : Nat) (cfg : CAConfiguration) (s : StateStore) : StateStore :=
  { s with configIdx := idx, config := { cfg with modifyIndex := idx } }

/-- Modelled from the spec (compare-and-set keyed on the configuration's
modification index): the write applies exactly when the caller's expected index
matches the stored configuration's modification index; otherwise the store is
untouched and false is returned. -/
def CACheckAndSetConfig (idx cidx : Nat) (cfg : CAConfiguration) (s : StateStore) :
    Bool × StateStore :=
  if cidx = s.config.modifyIndex then (true, CASetConfig idx cfg s) else (false, s)

/-- Modelled from the spec (compare-and-set write of the root set): the write
applies exactly when the caller's expected index matches the root table's
current index; otherwise the store is untouched and false is returned. -/
def CARootSetCAS (idx cidx : Nat) (rs : List CARoot) (s : StateStore) :
    Bool × StateStore :=
  if cidx = s.rootsIdx then (true, { s with rootsIdx := idx, roots := rs }) else (false, s)

/-- CA store write operations dispatched through the raft apply path; the claims
exercise the configuration and roots-and-config writes. -/
inductive CAOp where
  | setConfig
  | setRootsAndConfig
deriving DecidableEq, Repr

/-- Request applied through the raft path, mirroring structs.CARequest as used
in src/unnamed/part_000. -/
structure CARequest where
  op : CAOp
  index : Nat
  config : CAConfiguration
  roots : List CARoot
deriving DecidableEq, Repr

/-- Response of ApplyCARequest: the Go code returns nil for the unconditional
configuration write and the applied flag for the compare-and-set paths. -/
inductive CAApplyResp where
  | unit
  | applied (b : Bool)
deriving DecidableEq, Repr

/-- Embedded from src/unnamed/part_000:83-113, mockCAServerDelegate.ApplyCARequest
(which by its own comment mirrors FSM.applyConnectCAOperation). A SetConfig
request with a non-zero ModifyIndex takes the check-and-set path, a zero
ModifyIndex takes the unconditional set; a SetRootsAndConfig request first
compare-and-sets the root set keyed on req.Index and, only if that applied,
compare-and-sets the configuration keyed on req.Config.ModifyIndex. -/
def ApplyCARequest (s : StateStore) (req : CARequest) : CAApplyResp × StateStore :=
  let idx := s.configIdx
  match req.op with
  | CAOp.setConfig =>
    if req.config.modifyIndex ≠ 0 then
      let p := CACheckAndSetConfig (idx + 1) req.config.modifyIndex req.config s
      (CAApplyResp.applied p.1, p.2)
    else
      (CAApplyResp.unit, CASetConfig (idx + 1) req.config s)
  | CAOp.setRootsAndConfig =>
    let p := CARootSetCAS idx req.index req.roots s
    if p.1 = false then
      (CAApplyResp.applied p.1, p.2)
    else
      let q := CACheckAndSetConfig (idx + 1) req.config.modifyIndex req.config p.2
      (CAApplyResp.applied q.1, q.2)

/-- Embedded from src/unnamed/part_000:162-166: the mock provider's certificate
material; the callback channel is test plumbing and is not part of the data. -/
structure mockCAProvider where
  rootPEM : String
  intermediatePem : String
deriving DecidableEq, Repr

/-- Embedded from src/unnamed/part_000:181-186, mockCAProvider.ActiveIntermediate:
returns the installed intermediate, falling back to the root certificate when no
intermediate has been installed; the Go error result is always nil. -/
def ActiveIntermediate (m : mockCAProvider) : String :=
  if m.intermediatePem = "" then m.rootPEM else m.intermediatePem

/-- Modelled from the spec (lifecycle state): the process-local lifecycle state
of the CA manager. The caState constants are referenced by the tests in src but
defined outside it. -/
inductive caState where
  | uninitialized
  | initializing
  | initialized
  | renewIntermediate
deriving DecidableEq, Repr

def caStateUninitialized : caState := caState.uninitialized

def caStateInitializing : caState := caState.initializing

def caStateInitialized : caState := caState.initialized

def caStateRenewIntermediate : caState := caState.renewIntermediate

/-- Printable name of a lifecycle state, used in the busy rejection. -/
def caStateName : caState → String
  | caState.uninitialized => "UNINITIALIZED"
  | caState.initializing => "INITIALIZING"
  | caState.initialized => "INITIALIZED"
  | caState.renewIntermediate => "RENEWING"

/-- Modelled from the spec: the busy rejection raised when the exclusivity guard
is already held, naming the in-progress state. -/
def caStateError (s : caState) : String :=
  "CA is already in state " ++ caStateName s

/-- Modelled from the spec: the lifecycle manager's process-local state. -/
structure CAManager where
  state : caState
deriving DecidableEq, Repr

/-- Modelled from the spec: a manager is created in the Uninitialized state. -/
def NewCAManager : CAManager := { state := caState.uninitialized }

/-- Error returned by SignCertificate when the root certificate is expired,
matching the message checked at src/unnamed/part_000:370. -/
def rootExpiredError : String :=
  "root expired: certificate expired, expiration date"

/-- Error returned by SignCertificate when the intermediate certificate is
expired, matching the message checked at src/unnamed/part_000:369. -/
def intermediateExpiredError : String :=
  "intermediate expired: certificate expired, expiration date"

/-- Modelled from the spec (drift buffer): a signing certificate is treated as
expired when its NotAfter is in the past relative to the current time advanced
by the drift buffer; NotBefore plays no part in the check. -/
def checkExpired (now drift : Int) (c : Cert) : Bool :=
  c.notAfter < now + drift

/-- Modelled from the spec (SignCertificate; the manager's SignCertificate is
not under src): before signing, validate the active chain's signers. The root
is checked first, then the leaf-signing intermediate when one is present; an
expired signer fails without calling Provider.Sign. A certificate whose
NotBefore is in the future is accepted optimistically. The returned flag
records whether Provider.Sign was invoked, and signResult is the provider's
outcome when it is. -/
def SignCertificate (now drift : Int) (root : Cert) (inter : Option Cert)
    (signResult : Except String String) : Except String String × Bool :=
  if checkExpired now drift root then
    (Except.error rootExpiredError, false)
  else
    match inter with
    | some ic =>
      if checkExpired now drift ic then (Except.error intermediateExpiredError, false)
      else (signResult, true)
    | none => (signResult, true)

/-- Event label emitted for the cross-datacenter Roots call,
src/unnamed/part_000:148. -/
def evRoots : String := "forwardDC/ConnectCA.Roots"

/-- Event label emitted by the provider's GenerateIntermediateCSR,
src/unnamed/part_000:174. -/
def evGenCSR : String := "provider/GenerateIntermediateCSR"

/-- Event label emitted for the cross-datacenter SignIntermediate forward,
src/unnamed/part_000:148. -/
def evSignIntermediate : String := "forwardDC/ConnectCA.SignIntermediate"

/-- Event label emitted by the provider's SetIntermediate,
src/unnamed/part_000:178. -/
def evSetIntermediate : String := "provider/SetIntermediate"

/-- Event label emitted by the durable raft apply, src/unnamed/part_000:89. -/
def evRaftApply : String := "raftApply/ConnectCA"

/-- Outcomes of the collaborators driven by Initialize's secondary-datacenter
branch: the primary's active root from the cross-datacenter Roots call, the
provider's CSR, the intermediate signed by the primary, the provider's
SetIntermediate result and the durable apply result. -/
structure InitEnv where
  primaryRoot : Except String CARoot
  csr : Except String String
  signedIntermediate : Except String Cert
  setIntermediateOk : Except String Unit
  applyOk : Except String Bool

/-- Modelled from the spec (Initialize, secondary branch; initializeSecondaryCA
is not under src): fetch the primary's roots, generate a CSR, have the primary
sign it, install the signed intermediate, and persist a local CARoot mirroring
the primary's root with the signed intermediate appended to its chain and the
SigningKeyID taken from it. Each successful step is recorded together with the
lifecycle state observable while the operation is in flight; a failing step
stops the sequence. -/
def initializeSecondarySteps (env : InitEnv) :
    Except String CARoot × List (String × caState) :=
  match env.primaryRoot with
  | Except.error e => (Except.error e, [])
  | Except.ok proot =>
    let t1 := [(evRoots, caState.initializing)]
    match env.csr with
    | Except.error e => (Except.error e, t1)
    | Except.ok _ =>
      let t2 := t1 ++ [(evGenCSR, caState.initializing)]
      match env.signedIntermediate with
      | Except.error e => (Except.error e, t2)
      | Except.ok ic =>
        let t3 := t2 ++ [(evSignIntermediate, caState.initializing)]
        match env.setIntermediateOk with
        | Except.error e => (Except.error e, t3)
        | Except.ok _ =>
          let t4 := t3 ++ [(evSetIntermediate, caState.initializing)]
          match env.applyOk with
          | Except.error e => (Except.error e, t4)
          | Except.ok _ =>
            let newRoot : CARoot :=
              { proot with
                intermediateCerts := proot.intermediateCerts ++ [ic]
                signingKeyID := HexString ic.skid }
            (Except.ok newRoot, t4 ++ [(evRaftApply, caState.initializing)])

/-- Modelled from the spec (Initialize): requires the Uninitialized state, runs
in Initializing while in flight, transitions to Initialized on success and back
to Uninitialized on failure. Leadership is checked once at entry; the mock
delegate in src always reports leadership, so that check is not modelled. -/
def InitializeSecondary (m : CAManager) (env : InitEnv) :
    Except String CARoot × List (String × caState) × CAManager :=
  if m.state = caState.uninitialized then
    match initializeSecondarySteps env with
    | (Except.ok r, tr) => (Except.ok r, tr, { state := caState.initialized })
    | (Except.error e, tr) => (Except.error e, tr, { state := caState.uninitialized })
  else
    (Except.error (caStateError m.state), [], m)

/-- Collaborator outcomes for RenewIntermediate: whether the current
intermediate is due for renewal under the expiry policy, then the same
CSR-sign-install-persist collaborators as initialization. -/
structure RenewEnv where
  needsRenew : Bool
  csr : Except String String
  signedIntermediate : Except String Cert
  setIntermediateOk : Except String Unit
  applyOk : Except String Bool

/-- Modelled from the spec (RenewIntermediate sequence for a secondary
datacenter): CSR, forward to the primary for signing, install, persist; each
successful step is recorded with the in-flight lifecycle state. -/
def renewIntermediateSteps (env : RenewEnv) :
    Except String Cert × List (String × caState) :=
  match env.csr with
  | Except.error e => (Except.error e, [])
  | Except.ok _ =>
    let t1 := [(evGenCSR, caState.renewIntermediate)]
    match env.signedIntermediate with
    | Except.error e => (Except.error e, t1)
    | Except.ok ic =>
      let t2 := t1 ++ [(evSignIntermediate, caState.renewIntermediate)]
      match env.setIntermediateOk with
      | Except.error e => (Except.error e, t2)
      | Except.ok _ =>
        let t3 := t2 ++ [(evSetIntermediate, caState.renewIntermediate)]
        match env.applyOk with
        | Except.error e => (Except.error e, t3)
        | Except.ok _ => (Except.ok ic, t3 ++ [(evRaftApply, caState.renewIntermediate)])

/-- Modelled from the spec (RenewIntermediate): rejected with the busy error
while another guarded operation is in flight; requires the Initialized state
unless force is set; a no-op when the current intermediate still has ample
validity; otherwise runs in RenewingIntermediate and returns to Initialized on
both success and failure. -/
def RenewIntermediate (m : CAManager) (force : Bool) (env : RenewEnv) :
    Except String Unit × List (String × caState) × CAManager :=
  if m.state = caState.initializing ∨ m.state = caState.renewIntermediate then
    (Except.error (caStateError m.state), [], m)
  else if m.state = caState.uninitialized ∧ force = false then
    (Except.error "CA is uninitialized", [], m)
  else if env.needsRenew = false then
    (Except.ok (), [], m)
  else
    match renewIntermediateSteps env with
    | (Except.ok _, tr) => (Except.ok (), tr, { state := caState.initialized })
    | (Except.error e, tr) => (Except.error e, tr, { state := caState.initialized })

/-- Collaborator outcomes for UpdateConfiguration: whether the provider
implementation is changing, whether the new provider supports cross-signing,
the cross-sign certificate from CrossSignCA, the freshly generated root
certificate, the freshly issued leaf-signing certificate, the new
configuration, and whether the durable compare-and-set applied. -/
structure UpdateEnv where
  providerChanged : Bool
  supportsCrossSigning : Bool
  crossSigned : Except String Cert
  newRootCert : Cert
  newSigningCert : Cert
  newConfig : CAConfiguration
  applyOk : Bool

/-- Modelled from the spec (UpdateConfiguration; the manager method is not
under src): rejected with the busy error naming the in-progress state while
Initialize or RenewIntermediate holds the guard, leaving the durable store
untouched. Otherwise, when the provider changes and the new provider supports
cross-signing, the cross-sign certificate is placed ahead of the freshly issued
leaf-signing certificate in the new root's chain; the new root carries the new
root certificate, its fingerprint as identifier, and the SigningKeyID of the
leaf-signing certificate. The atomic replace of roots and configuration is
keyed on the configuration's modification index; a conflict leaves the store
untouched, a success deactivates the previous roots and appends the new one. -/
def UpdateConfiguration (m : CAManager) (s : StateStore)
    (env : UpdateEnv) : Except String CARoot × StateStore × CAManager :=
  if m.state = caState.initializing ∨ m.state = caState.renewIntermediate then
    (Except.error (caStateError m.state), s, m)
  else if m.state = caState.uninitialized then
    (Except.error "CA is uninitialized", s, m)
  else
    let crossChain : Except String (List Cert) :=
      if env.providerChanged ∧ env.supportsCrossSigning then
        match env.crossSigned with
        | Except.error e => Except.error e
        | Except.ok cc => Except.ok [cc]
      else Except.ok []
    match crossChain with
    | Except.error e => (Except.error e, s, m)
    | Except.ok cc =>
      let newRoot : CARoot :=
        { id := env.newRootCert
          rootCert := env.newRootCert
          intermediateCerts := cc ++ [env.newSigningCert]
          active := true
          signingKeyID := HexString env.newSigningCert.skid }
      if env.applyOk then
        (Except.ok newRoot,
          { configIdx := s.configIdx + 1
            config := { env.newConfig with modifyIndex := s.configIdx + 1 }
            rootsIdx := s.rootsIdx + 1
            roots := (s.roots.map (fun r => { r with active := false })) ++ [newRoot] },
          m)
      else
        (Except.error "CA configuration update rejected: modification index conflict", s, m)

/-- Helper: the last certificate of a chain ending in c is c. -/
theorem chain_getLast_append (l : List Cert) (c : Cert) :
    (l ++ [c]).getLast? = some c := by
  rw [List.getLast?_append_cons]
  rfl

/-- Claim C1: for every SignCertificate call, a root certificate whose NotAfter
is in the past relative to the drift buffer fails with the "root expired" error
without calling Provider.Sign; with a valid root, an intermediate whose
NotAfter is past fails with the "intermediate expired" error, again without
signing; when both certificates are within their validity windows the call
succeeds with the provider's leaf. -/
theorem signCertificate_expired_checks (now drift : Int) (root ic : Cert) (leaf : String) :
    (root.notAfter < now + drift →
      SignCertificate now drift root (some ic) (Except.ok leaf) =
        (Except.error rootExpiredError, false)) ∧
    (now + drift ≤ root.notAfter → ic.notAfter < now + drift →
      SignCertificate now drift root (some ic) (Except.ok leaf) =
        (Except.error intermediateExpiredError, false)) ∧
    (now + drift ≤ root.notAfter → now + drift ≤ ic.notAfter →
      SignCertificate now drift root (some ic) (Except.ok leaf) =
        (Except.ok leaf, true)) := by
  refine ⟨fun h1 => ?_, fun h1 h2 => ?_, fun h1 h2 => ?_⟩
  · simp [SignCertificate, checkExpired, h1]
  · have hr : ¬ root.notAfter < now + drift := by omega
    simp [SignCertificate, checkExpired, hr, h2]
  · have hr : ¬ root.notAfter < now + drift := by omega
    have hi : ¬ ic.notAfter < now + drift := by omega
    simp [SignCertificate, checkExpired, hr, hi]

/-- Witness for C1 at concrete certificates: an expired root, an expired
intermediate under a valid root, and a fully valid chain. -/
theorem signCertificate_expired_checks_witness :
    SignCertificate 100 5 ⟨0, 50, [1]⟩ (some ⟨0, 200, [2]⟩) (Except.ok "leaf") =
        (Except.error rootExpiredError, false) ∧
    SignCertificate 0 0 ⟨0, 50, [1]⟩ (some ⟨0, -1, [2]⟩) (Except.ok "leaf") =
        (Except.error intermediateExpiredError, false) ∧
    SignCertificate 0 0 ⟨0, 50, [1]⟩ (some ⟨0, 60, [2]⟩) (Except.ok "leaf") =
        (Except.ok "leaf", true) :=
  ⟨(signCertificate_expired_checks 100 5 ⟨0, 50, [1]⟩ ⟨0, 200, [2]⟩ "leaf").1 (by decide),
    (signCertificate_expired_checks 0 0 ⟨0, 50, [1]⟩ ⟨0, -1, [2]⟩ "leaf").2.1
      (by decide) (by decide),
    (signCertificate_expired_checks 0 0 ⟨0, 50, [1]⟩ ⟨0, 60, [2]⟩ "leaf").2.2
      (by decide) (by decide)⟩

/-- Claim C7: a signing certificate whose NotBefore is still in the future but
whose NotAfter is within the drift-adjusted validity window is accepted:
SignCertificate succeeds and never rejects a not-yet-valid certificate as
expired. -/
theorem signCertificate_accepts_notBefore_future (now drift : Int) (root ic : Cert)
    (leaf : String)
    (hroot : now + drift ≤ root.notAfter) (hic : now + drift ≤ ic.notAfter)
    (hfuture : now < root.notBefore ∨ now < ic.notBefore) :
    SignCertificate now drift root (some ic) (Except.ok leaf) = (Except.ok leaf, true) := by
  have hr : ¬ root.notAfter < now + drift := by omega
  have hi : ¬ ic.notAfter < now + drift := by omega
  simp [SignCertificate, checkExpired, hr, hi]

/-- Witness for C7: the intermediate's NotBefore lies one day in the future yet
signing succeeds. -/
theorem signCertificate_accepts_notBefore_future_witness :
    SignCertificate 0 0 ⟨-10, 50, [1]⟩ (some ⟨86400, 172800, [2]⟩) (Except.ok "leaf") =
      (Except.ok "leaf", true) :=
  signCertificate_accepts_notBefore_future 0 0 ⟨-10, 50, [1]⟩ ⟨86400, 172800, [2]⟩ "leaf"
    (by decide) (by decide) (Or.inr (by decide))

/-- Claim C9: the provider's ActiveIntermediate returns the installed
intermediate certificate when one has been set and falls back to the root
certificate when the intermediate is empty. -/
theorem activeIntermediate_fallback (m : mockCAProvider) :
    (m.intermediatePem ≠ "" → ActiveIntermediate m = m.intermediatePem) ∧
    (m.intermediatePem = "" → ActiveIntermediate m = m.rootPEM) := by
  constructor <;> intro h <;> simp [ActiveIntermediate, h]

/-- Witness for C9: with and without an installed intermediate. -/
theorem activeIntermediate_fallback_witness :
    ActiveIntermediate ⟨"rootpem", "interpem"⟩ = "interpem" ∧
    ActiveIntermediate ⟨"rootpem", ""⟩ = "rootpem" :=
  ⟨(activeIntermediate_fallback ⟨"rootpem", "interpem"⟩).1 (by decide),
    (activeIntermediate_fallback ⟨"rootpem", ""⟩).2 (by decide)⟩

/-- Claim C10: a SetConfig apply whose configuration carries ModifyIndex 0 is
written unconditionally, bypassing the compare-and-set — the stored
configuration becomes the new one whatever the store held; a non-zero
ModifyIndex takes the check-and-set path, applying exactly when it matches the
stored configuration's modification index. -/
theorem setConfig_zero_modifyIndex_bypasses_cas (s : StateStore)
    (cfg : CAConfiguration) (i : Nat) (rs : List CARoot) :
    (cfg.modifyIndex = 0 →
      ApplyCARequest s ⟨CAOp.setConfig, i, cfg, rs⟩ =
        (CAApplyResp.unit, CASetConfig (s.configIdx + 1) cfg s)) ∧
    (cfg.modifyIndex ≠ 0 → cfg.modifyIndex = s.config.modifyIndex →
      ApplyCARequest s ⟨CAOp.setConfig, i, cfg, rs⟩ =
        (CAApplyResp.applied true, CASetConfig (s.configIdx + 1) cfg s)) ∧
    (cfg.modifyIndex ≠ 0 → cfg.modifyIndex ≠ s.config.modifyIndex →
      ApplyCARequest s ⟨CAOp.setConfig, i, cfg, rs⟩ =
        (CAApplyResp.applied false, s)) := by
  refine ⟨fun h0 => ?_, fun h0 h1 => ?_, fun h0 h1 => ?_⟩
  · simp [ApplyCARequest, h0]
  · have h2 : s.config.modifyIndex ≠ 0 := h1 ▸ h0
    simp [ApplyCARequest, CACheckAndSetConfig, h0, h1, h2]
  · simp [ApplyCARequest, CACheckAndSetConfig, h0, h1]

/-- Counterexample to C6 as stated: a stale SetRootsAndConfig request whose
configuration expects modification index 5 against a store whose configuration
sits at index 1. The request's root CAS index (0) matches the empty root
table, so the root write applies before the configuration compare-and-set
fails: the operation reports not-applied and the configuration is untouched,
but the stored root set HAS changed. -/
theorem setRootsAndConfig_cas_counterexample :
    (CARequest.mk CAOp.setRootsAndConfig 0 ⟨"vault", 5⟩
          [⟨⟨0, 10, [3]⟩, ⟨0, 10, [3]⟩, [], true, ""⟩]).config.modifyIndex ≠
        (StateStore.mk 1 ⟨"consul", 1⟩ 0 []).config.modifyIndex ∧
    (ApplyCARequest (StateStore.mk 1 ⟨"consul", 1⟩ 0 [])
          (CARequest.mk CAOp.setRootsAndConfig 0 ⟨"vault", 5⟩
            [⟨⟨0, 10, [3]⟩, ⟨0, 10, [3]⟩, [], true, ""⟩])).1 =
        CAApplyResp.applied false ∧
    (ApplyCARequest (StateStore.mk 1 ⟨"consul", 1⟩ 0 [])
          (CARequest.mk CAOp.setRootsAndConfig 0 ⟨"vault", 5⟩
            [⟨⟨0, 10, [3]⟩, ⟨0, 10, [3]⟩, [], true, ""⟩])).2.config =
        (StateStore.mk 1 ⟨"consul", 1⟩ 0 []).config ∧
    (ApplyCARequest (StateStore.mk 1 ⟨"consul", 1⟩ 0 [])
          (CARequest.mk CAOp.setRootsAndConfig 0 ⟨"vault", 5⟩
            [⟨⟨0, 10, [3]⟩, ⟨0, 10, [3]⟩, [], true, ""⟩])).2.roots ≠
        (StateStore.mk 1 ⟨"consul", 1⟩ 0 []).roots := by
  decide

/-- Claim C6 (amended): a SetRootsAndConfig apply whose configuration carries an
expected modification index different from the stored configuration's reports a
conflict (not applied) and leaves the stored configuration and its index
untouched; the stored root set is also untouched whenever the request's root
CAS index does not match the root table's index, but when the root
compare-and-set succeeds first, the new roots stay written even though the
configuration write is rejected. -/
theorem setRootsAndConfig_cas_conflict (s : StateStore) (req : CARequest)
    (hop : req.op = CAOp.setRootsAndConfig)
    (hmi : req.config.modifyIndex ≠ s.config.modifyIndex) :
    (ApplyCARequest s req).1 = CAApplyResp.applied false ∧
    (ApplyCARequest s req).2.config = s.config ∧
    (ApplyCARequest s req).2.configIdx = s.configIdx ∧
    (req.index ≠ s.rootsIdx → (ApplyCARequest s req).2 = s) := by
  obtain ⟨op, ridx, rcfg, rroots⟩ := req
  simp only at hop hmi
  subst hop
  by_cases hr : ridx = s.rootsIdx
  · simp [ApplyCARequest, CARootSetCAS, CACheckAndSetConfig, hr, hmi]
  · simp [ApplyCARequest, CARootSetCAS, CACheckAndSetConfig, hr, hmi]

/-- Witness for the amended C6: both CAS keys are stale, so the store is
returned exactly as it was. -/
theorem setRootsAndConfig_cas_conflict_witness :
    (ApplyCARequest (StateStore.mk 1 ⟨"consul", 1⟩ 0 [])
          (CARequest.mk CAOp.setRootsAndConfig 7 ⟨"vault", 5⟩ [])).1 =
        CAApplyResp.applied false ∧
    (ApplyCARequest (StateStore.mk 1 ⟨"consul", 1⟩ 0 [])
          (CARequest.mk CAOp.setRootsAndConfig 7 ⟨"vault", 5⟩ [])).2 =
        StateStore.mk 1 ⟨"consul", 1⟩ 0 [] := by
  have h := setRootsAndConfig_cas_conflict (StateStore.mk 1 ⟨"consul", 1⟩ 0 [])
    (CARequest.mk CAOp.setRootsAndConfig 7 ⟨"vault", 5⟩ []) rfl (by decide)
  exact ⟨h.1, h.2.2.2 (by decide)⟩

/-- Claim C2: a successful Initialize on a secondary datacenter emits exactly
one cross-datacenter Roots call, one GenerateIntermediateCSR, one
SignIntermediate forward, one SetIntermediate and one durable apply, in that
order, and nothing else. -/
theorem initialize_secondary_call_order (env : InitEnv) (r : CARoot)
    (tr : List (String × caState)) (m' : CAManager)
    (h : InitializeSecondary NewCAManager env = (Except.ok r, tr, m')) :
    tr.map Prod.fst =
      [evRoots, evGenCSR, evSignIntermediate, evSetIntermediate, evRaftApply] := by
  obtain ⟨pr, csr, si, se, ap⟩ := env
  cases pr <;> cases csr <;> cases si <;> cases se <;> cases ap <;>
    simp_all [InitializeSecondary, initializeSecondarySteps, NewCAManager]
  obtain ⟨-, htr, -⟩ := h
  subst htr
  rfl

/-- Witness for C2: a concrete all-successful secondary initialization yields
exactly the five expected calls in order. -/
theorem initialize_secondary_call_order_witness :
    List.map Prod.fst
        [(evRoots, caState.initializing), (evGenCSR, caState.initializing),
          (evSignIntermediate, caState.initializing),
          (evSetIntermediate, caState.initializing),
          (evRaftApply, caState.initializing)] =
      [evRoots, evGenCSR, evSignIntermediate, evSetIntermediate, evRaftApply] :=
  initialize_secondary_call_order
    ⟨Except.ok ⟨⟨0, 10, [1]⟩, ⟨0, 10, [1]⟩, [], true, ""⟩, Except.ok "csr",
      Except.ok ⟨0, 9, []⟩, Except.ok (), Except.ok true⟩
    ⟨⟨0, 10, [1]⟩, ⟨0, 10, [1]⟩, [⟨0, 9, []⟩], true, ""⟩
    [(evRoots, caState.initializing), (evGenCSR, caState.initializing),
      (evSignIntermediate, caState.initializing), (evSetIntermediate, caState.initializing),
      (evRaftApply, caState.initializing)]
    ⟨caState.initialized⟩ (by rfl)

/-- Claim C3: the manager starts at Uninitialized; every state observed while a
successful Initialize is in flight is Initializing and the final state is
Initialized; every state observed while a successful RenewIntermediate is in
flight is RenewingIntermediate and the final state is again Initialized. -/
theorem lifecycle_state_machine (env : InitEnv) (renv : RenewEnv) :
    NewCAManager.state = caStateUninitialized ∧
    (∀ r tr m', InitializeSecondary NewCAManager env = (Except.ok r, tr, m') →
      (∀ st ∈ tr.map Prod.snd, st = caStateInitializing) ∧
        m'.state = caStateInitialized) ∧
    (∀ (u : Unit) tr m',
        RenewIntermediate ⟨caState.initialized⟩ false renv = (Except.ok u, tr, m') →
      (∀ st ∈ tr.map Prod.snd, st = caStateRenewIntermediate) ∧
        m'.state = caStateInitialized) := by
  refine ⟨rfl, ?_, ?_⟩
  · intro r tr m' h
    obtain ⟨pr, csr, si, se, ap⟩ := env
    cases pr <;> cases csr <;> cases si <;> cases se <;> cases ap <;>
      simp [InitializeSecondary, initializeSecondarySteps, NewCAManager] at h
    obtain ⟨-, htr, hm⟩ := h
    subst htr
    subst hm
    exact ⟨by decide, rfl⟩
  · intro u tr m' h
    obtain ⟨nr, csr, si, se, ap⟩ := renv
    cases nr
    · simp [RenewIntermediate] at h
      obtain ⟨htr, hm⟩ := h
      subst htr
      subst hm
      exact ⟨by decide, rfl⟩
    · cases csr <;> cases si <;> cases se <;> cases ap <;>
        simp [RenewIntermediate, renewIntermediateSteps] at h
      obtain ⟨htr, hm⟩ := h
      subst htr
      subst hm
      exact ⟨by decide, rfl⟩

/-- Witness for C3: the fresh manager is Uninitialized; applying the theorem to
a concrete successful renewal shows its first in-flight observation is in the
RenewingIntermediate state and the final state is Initialized. -/
theorem lifecycle_state_machine_witness :
    NewCAManager.state = caStateUninitialized ∧
    (CAManager.mk caState.initialized).state = caStateInitialized ∧
    caState.renewIntermediate = caStateRenewIntermediate := by
  have h := lifecycle_state_machine
    ⟨Except.ok ⟨⟨0, 10, [1]⟩, ⟨0, 10, [1]⟩, [], true, ""⟩, Except.ok "csr",
      Except.ok ⟨0, 9, []⟩, Except.ok (), Except.ok true⟩
    ⟨true, Except.ok "csr", Except.ok ⟨0, 9, []⟩, Except.ok (), Except.ok true⟩
  have h2 := h.2.2 ()
    [(evGenCSR, caState.renewIntermediate), (evSignIntermediate, caState.renewIntermediate),
      (evSetIntermediate, caState.renewIntermediate), (evRaftApply, caState.renewIntermediate)]
    ⟨caState.initialized⟩ (by rfl)
  exact ⟨h.1, h2.2, h2.1 caState.renewIntermediate (by decide)⟩

/-- Claim C4: UpdateConfiguration invoked while Initialize or RenewIntermediate
holds the exclusivity guard fails with the busy error naming the in-progress
state, and the durable store (roots and configuration) is returned exactly as
it was. -/
theorem updateConfiguration_busy (m : CAManager) (s : StateStore) (env : UpdateEnv)
    (h : m.state = caStateInitializing ∨ m.state = caStateRenewIntermediate) :
    UpdateConfiguration m s env = (Except.error (caStateError m.state), s, m) := by
  rcases h with h | h <;>
    simp [UpdateConfiguration, h, caStateInitializing, caStateRenewIntermediate]

/-- Witness for C4: a busy rejection during an in-flight renewal names the
RENEWING state and leaves the concrete store untouched. -/
theorem updateConfiguration_busy_witness :
    UpdateConfiguration ⟨caState.renewIntermediate⟩ ⟨1, ⟨"consul", 1⟩, 0, []⟩
        ⟨true, true, Except.ok ⟨0, 1, []⟩, ⟨0, 2, []⟩, ⟨0, 3, []⟩, ⟨"vault", 1⟩, true⟩ =
      (Except.error (caStateError caState.renewIntermediate),
        ⟨1, ⟨"consul", 1⟩, 0, []⟩, ⟨caState.renewIntermediate⟩) :=
  updateConfiguration_busy ⟨caState.renewIntermediate⟩ ⟨1, ⟨"consul", 1⟩, 0, []⟩
    ⟨true, true, Except.ok ⟨0, 1, []⟩, ⟨0, 2, []⟩, ⟨0, 3, []⟩, ⟨"vault", 1⟩, true⟩
    (Or.inr rfl)

/-- Claim C5: an UpdateConfiguration that switches to a different provider
supporting cross-signing, whose cross-sign and durable compare-and-set succeed,
yields a new active CARoot whose intermediate chain is exactly the cross-sign
certificate followed by the freshly issued leaf-signing certificate (length 2),
and whose identifier differs from the replaced root's whenever the new
provider's root certificate differs from the old one. -/
theorem updateConfiguration_cross_sign_chain (s : StateStore) (oldRoot : CARoot)
    (env : UpdateEnv) (cc : Cert)
    (hid : oldRoot.id = oldRoot.rootCert)
    (hpc : env.providerChanged = true)
    (hcs : env.supportsCrossSigning = true)
    (hcc : env.crossSigned = Except.ok cc)
    (hap : env.applyOk = true)
    (hneq : env.newRootCert ≠ oldRoot.rootCert) :
    ∃ r s', UpdateConfiguration ⟨caState.initialized⟩ s env =
        (Except.ok r, s', ⟨caState.initialized⟩) ∧
      r.intermediateCerts = [cc, env.newSigningCert] ∧
      r.intermediateCerts.length = 2 ∧
      r.active = true ∧
      r.id ≠ oldRoot.id := by
  obtain ⟨pc, sc, cs, nrc, nsc, ncfg, ap⟩ := env
  simp only at hpc hcs hcc hap hneq
  subst hpc hcs hcc hap
  refine ⟨_, _, rfl, rfl, rfl, rfl, ?_⟩
  simp only
  rw [hid]
  exact hneq

/-- Witness for C5: a concrete provider switch with cross-signing produces the
two-certificate chain and a fresh identifier. -/
theorem updateConfiguration_cross_sign_chain_witness :
    ∃ r s', UpdateConfiguration ⟨caState.initialized⟩ ⟨1, ⟨"consul", 1⟩, 0, []⟩
        ⟨true, true, Except.ok ⟨0, 1, [7]⟩, ⟨0, 2, [8]⟩, ⟨0, 3, [9]⟩, ⟨"vault", 1⟩, true⟩ =
        (Except.ok r, s', ⟨caState.initialized⟩) ∧
      r.intermediateCerts = [⟨0, 1, [7]⟩, ⟨0, 3, [9]⟩] ∧
      r.intermediateCerts.length = 2 ∧
      r.active = true ∧
      r.id ≠ (CARoot.mk ⟨5, 6, [4]⟩ ⟨5, 6, [4]⟩ [] true "").id :=
  updateConfiguration_cross_sign_chain ⟨1, ⟨"consul", 1⟩, 0, []⟩
    (CARoot.mk ⟨5, 6, [4]⟩ ⟨5, 6, [4]⟩ [] true "")
    ⟨true, true, Except.ok ⟨0, 1, [7]⟩, ⟨0, 2, [8]⟩, ⟨0, 3, [9]⟩, ⟨"vault", 1⟩, true⟩
    ⟨0, 1, [7]⟩ rfl rfl rfl rfl rfl (by decide)

/-- Claim C8: the invariant that a CARoot's SigningKeyID equals the hex-encoded
subject key id of the certificate used to sign leaves (the leaf-signing
certificate resolved from the root's chain) holds for the root produced by a
successful Initialize and is preserved by UpdateConfiguration: when the
replaced active root satisfied it, the replacing root does too. -/
theorem signingKeyID_invariant (m : CAManager) (s : StateStore) (env : UpdateEnv)
    (ienv : InitEnv) (oldRoot : CARoot)
    (hold : rootSigningKeyConsistent oldRoot) :
    (∀ r tr m', InitializeSecondary NewCAManager ienv = (Except.ok r, tr, m') →
      rootSigningKeyConsistent r) ∧
    (∀ r s' m', UpdateConfiguration m s env = (Except.ok r, s', m') →
      rootSigningKeyConsistent oldRoot ∧ rootSigningKeyConsistent r) := by
  constructor
  · intro r tr m' h
    obtain ⟨pr, csr, si, se, ap⟩ := ienv
    cases pr <;> cases csr <;> cases si <;> cases se <;> cases ap <;>
      simp_all [InitializeSecondary, initializeSecondarySteps, NewCAManager]
    obtain ⟨hr, -, -⟩ := h
    rw [← hr]
    simp [rootSigningKeyConsistent, getLeafSigningCertFromRoot, chain_getLast_append]
  · intro r s' m' h
    refine ⟨hold, ?_⟩
    obtain ⟨st⟩ := m
    obtain ⟨pc, sc, cs, nrc, nsc, ncfg, ap⟩ := env
    cases st <;> cases pc <;> cases sc <;> cases cs <;> cases ap <;>
      simp_all [UpdateConfiguration] <;>
      (obtain ⟨hr, -, -⟩ := h
       rw [← hr]
       rfl)

/-- Witness for C8: a consistent single-certificate root stays consistent
through a concrete cross-signing provider switch. -/
theorem signingKeyID_invariant_witness :
    rootSigningKeyConsistent (CARoot.mk ⟨5, 6, []⟩ ⟨5, 6, []⟩ [] true "") ∧
    rootSigningKeyConsistent
      (CARoot.mk ⟨0, 2, []⟩ ⟨0, 2, []⟩ [⟨0, 1, []⟩, ⟨0, 3, []⟩] true "") := by
  have h := signingKeyID_invariant ⟨caState.initialized⟩ ⟨1, ⟨"consul", 1⟩, 0, []⟩
    ⟨true, true, Except.ok ⟨0, 1, []⟩, ⟨0, 2, []⟩, ⟨0, 3, []⟩, ⟨"vault", 1⟩, true⟩
    ⟨Except.ok ⟨⟨0, 10, []⟩, ⟨0, 10, []⟩, [], true, ""⟩, Except.ok "csr",
      Except.ok ⟨0, 9, []⟩, Except.ok (), Except.ok true⟩
    (CARoot.mk ⟨5, 6, []⟩ ⟨5, 6, []⟩ [] true "") (by rfl)
  have h2 := h.2 (CARoot.mk ⟨0, 2, []⟩ ⟨0, 2, []⟩ [⟨0, 1, []⟩, ⟨0, 3, []⟩] true "")
    ⟨2, ⟨"vault", 2⟩, 1, [CARoot.mk ⟨0, 2, []⟩ ⟨0, 2, []⟩ [⟨0, 1, []⟩, ⟨0, 3, []⟩] true ""]⟩
    ⟨caState.initialized⟩ (by rfl)
  exact ⟨h2.1, h2.2⟩

/-- Witness for C10: a zero-ModifyIndex write lands even though the stored
configuration is at index 9, while a stale non-zero index is rejected
unchanged. -/
theorem setConfig_zero_modifyIndex_bypasses_cas_witness :
    ApplyCARequest ⟨9, ⟨"consul", 9⟩, 0, []⟩ ⟨CAOp.setConfig, 0, ⟨"vault", 0⟩, []⟩ =
        (CAApplyResp.unit, ⟨10, ⟨"vault", 10⟩, 0, []⟩) ∧
    ApplyCARequest ⟨9, ⟨"consul", 9⟩, 0, []⟩ ⟨CAOp.setConfig, 0, ⟨"vault", 3⟩, []⟩ =
        (CAApplyResp.applied false, ⟨9, ⟨"consul", 9⟩, 0, []⟩) :=
  ⟨(setConfig_zero_modifyIndex_bypasses_cas ⟨9, ⟨"consul", 9⟩, 0, []⟩ ⟨"vault", 0⟩ 0 []).1
      (by decide),
    (setConfig_zero_modifyIndex_bypasses_cas ⟨9, ⟨"consul", 9⟩, 0, []⟩ ⟨"vault", 3⟩ 0 []).2.2
      (by decide) (by decide)⟩

end ConsulCA
